import Mathlib

/-!
Shallow embedding of the ev-oracle resolution pipeline.

Sources embedded (Go):
* `internal/models` constants (`ConfidenceThreshold`, `LLMConfidenceScore`)
* `internal/llm/llm.go` — `parseEVSpecs`, the three package-level regexes and
  `QueryEVSpecs`'s parse step (transport is an oracle)
* `internal/embedding` — `New`, `NewWithProvider`, `BuildQueryText`, and the
  provider dispatch of `GetEmbedding`
* `internal/db` — `GetByMakeModelYear`, `SimilaritySearch` (the SQL is embedded
  as list operations over the store's rows; the ANN ordering by cosine distance
  is the store's job, so the distance-ordered row list is an input)
* `cmd` — `runQuery` (the root command: the Resolve pipeline) and `runAdd`

Floating-point values (capacity, power, confidence, cosine distance) are
modelled as exact rationals; external I/O outcomes (config load, db connection,
transport errors, LLM text) are oracle inputs threaded explicitly.
-/

namespace EVOracle

/-- models/constants.go: minimum confidence for database results (0.8). -/
def ConfidenceThreshold : ℚ := mkRat 8 10

/-- models/constants.go: confidence assigned to LLM-generated results (0.5). -/
def LLMConfidenceScore : ℚ := mkRat 5 10

/-- models/constants.go: embedding dimension. -/
def EmbeddingDimension : Nat := 768

/-- models.EVSpec. -/
structure EVSpec where
  make : String
  model : String
  year : Int
  capacity : ℚ
  power : ℚ
  chemistry : String
  confidence : ℚ
  source : String
deriving DecidableEq, Repr

/-! ### Response parser (internal/llm/llm.go, parseEVSpecs)

The three RE2 patterns are embedded directly:
  capacityRe  = (?i)capacity:\s*([0-9.]+)\s*kWh
  powerRe     = (?i)power:\s*([0-9.]+)\s*kW
  chemistryRe = (?i)chemistry:\s*([^\n]+)
Matching is leftmost; at a given start position the greedy submatches are
deterministic (for the numeric patterns the character classes are disjoint so
no backtracking can succeed; for the chemistry pattern `\s*` backtracks only
when everything after the colon is whitespace). -/

/-- RE2's Perl class `\s` = `[\t\n\f\r ]`. -/
def isRe2Space (c : Char) : Bool :=
  c == '\t' || c == '\n' || c == '\x0c' || c == '\r' || c == ' '

/-- Character class `[0-9.]`. -/
def isNumChar (c : Char) : Bool := c.isDigit || c == '.'

/-- Case-insensitive literal match: drop `lit` (compared lowercased) from the
head of `cs`, returning the remainder. -/
def dropLitCI : List Char → List Char → Option (List Char)
  | [], cs => some cs
  | _ :: _, [] => none
  | p :: ps, c :: cs => if p.toLower == c.toLower then dropLitCI ps cs else none

/-- Attempt `lit ++ \s* ++ ([0-9.]+) ++ \s* ++ unit` anchored at the head of
`cs`; returns the digit-class capture. Greedy maximal munch is exact here. -/
def matchNumPatAt (lit unit : List Char) (cs : List Char) : Option (List Char) :=
  match dropLitCI lit cs with
  | none => none
  | some t =>
    let t1 := t.dropWhile isRe2Space
    let d := t1.takeWhile isNumChar
    if d.isEmpty then none
    else
      let t2 := (t1.drop d.length).dropWhile isRe2Space
      if (dropLitCI unit t2).isSome then some d else none

/-- Leftmost search for the numeric pattern: try each start position. -/
def findNumCapture (lit unit : List Char) : List Char → Option (List Char)
  | [] => none
  | c :: cs =>
    match matchNumPatAt lit unit (c :: cs) with
    | some d => some d
    | none => findNumCapture lit unit cs

/-- Backtracking case of `chemistry:\s*([^\n]+)` when everything after the
colon is whitespace: `\s*` shrinks until `[^\n]+` can consume one character,
i.e. the rightmost non-newline whitespace character starts the capture. -/
def lastSpaceRunCapture : List Char → Option (List Char)
  | [] => none
  | c :: cs =>
    match lastSpaceRunCapture cs with
    | some r => some r
    | none => if c != '\n' then some ((c :: cs).takeWhile (fun x => x != '\n')) else none

/-- Attempt `lit ++ \s* ++ ([^\n]+)` anchored at the head of `cs`. -/
def matchChemAt (lit : List Char) (cs : List Char) : Option (List Char) :=
  match dropLitCI lit cs with
  | none => none
  | some t =>
    let w := t.takeWhile isRe2Space
    match t.drop w.length with
    | [] => lastSpaceRunCapture w
    | c :: rest => some ((c :: rest).takeWhile (fun x => x != '\n'))

/-- Leftmost search for the chemistry pattern. -/
def findChemCapture (lit : List Char) : List Char → Option (List Char)
  | [] => none
  | c :: cs =>
    match matchChemAt lit (c :: cs) with
    | some d => some d
    | none => findChemCapture lit cs

/-- Digits to a natural number (most significant first). -/
def digitsToNat (ds : List Char) : Nat :=
  ds.foldl (fun a c => a * 10 + (c.toNat - 48)) 0

/-- Exact value of a decimal string over `[0-9.]` with at most one dot:
integer part plus fractional part over the matching power of ten. -/
def decimalToRat (d : List Char) : ℚ :=
  let ip := d.takeWhile (fun c => c != '.')
  let fp := (d.dropWhile (fun c => c != '.')).drop 1
  mkRat (digitsToNat ip * 10 ^ fp.length + digitsToNat fp) (10 ^ fp.length)

/-- strconv.ParseFloat restricted to captures of `[0-9.]+`: succeeds iff the
string has at least one digit and at most one dot (value taken exactly). -/
def parseGoFloat (d : List Char) : Option ℚ :=
  if d.any Char.isDigit && d.count '.' ≤ 1 then some (decimalToRat d) else none

/-- unicode.IsSpace, as used by strings.TrimSpace. -/
def isGoUniSpace (c : Char) : Bool :=
  c == ' ' || c == '\t' || c == '\n' || c == '\x0b' || c == '\x0c' || c == '\r' ||
  c == '\x85' || c == '\xa0' || c == ' ' ||
  (' ' ≤ c && c ≤ ' ') ||
  c == ' ' || c == ' ' || c == ' ' || c == ' ' || c == '　'

/-- strings.TrimSpace. -/
def goTrimSpace (s : List Char) : List Char :=
  ((s.dropWhile isGoUniSpace).reverse.dropWhile isGoUniSpace).reverse

/-- Capacity field: regex capture, then ParseFloat; the field stays 0 when the
regex misses or ParseFloat fails. -/
def extractCapacity (text : List Char) : ℚ :=
  match findNumCapture "capacity:".data "kwh".data text with
  | none => 0
  | some d => (parseGoFloat d).getD 0

/-- Power field, same shape with the `kW` unit. -/
def extractPower (text : List Char) : ℚ :=
  match findNumCapture "power:".data "kw".data text with
  | none => 0
  | some d => (parseGoFloat d).getD 0

/-- Chemistry field: regex capture then strings.TrimSpace; empty when no match. -/
def extractChemistry (text : List Char) : String :=
  match findChemCapture "chemistry:".data text with
  | none => ""
  | some cap => ⟨goTrimSpace cap⟩

/-- llm.parseEVSpecs: builds the record (confidence and source fixed up
front), extracts the three fields independently, and fails only when all
three came out zero/empty. -/
def parseEVSpecs (text mk md : String) (yr : Int) : Option EVSpec :=
  let capacity := extractCapacity text.data
  let power := extractPower text.data
  let chemistry := extractChemistry text.data
  if capacity == 0 && power == 0 && chemistry == "" then none
  else some { make := mk, model := md, year := yr, capacity := capacity,
              power := power, chemistry := chemistry,
              confidence := LLMConfidenceScore, source := "llm" }

/-- llm.Service.QueryEVSpecs with the provider round-trip as an oracle: a
transport failure propagates, a reply is parsed, and a parse failure is the
fixed error message from parseEVSpecs. -/
def queryEVSpecs (llmText : Except String String) (mk md : String) (yr : Int) :
    Except String EVSpec :=
  match llmText with
  | .error e => .error e
  | .ok text =>
    match parseEVSpecs text mk md yr with
    | some spec => .ok spec
    | none => .error "failed to extract any specifications from response"

/-! ### Configuration and embedding service (models/config.go, internal/embedding) -/

/-- models.Config (fields the pipeline reads). -/
structure Config where
  databaseURL : String
  openAIAPIKey : String
  anthropicAPIKey : String
  embeddingProvider : String
  llmProvider : String
  ollamaURL : String
  ollamaModel : String
  ollamaLLMModel : String
deriving DecidableEq, Repr

/-- embedding.Service (provider selection state; the HTTP client is I/O). -/
structure EmbeddingService where
  provider : String
  openAIKey : String
  ollamaURL : String
  ollamaModel : String
deriving DecidableEq, Repr

/-- embedding.New: hard-codes the OpenAI provider. -/
def embeddingNew (apiKey : String) : EmbeddingService :=
  { provider := "openai", openAIKey := apiKey, ollamaURL := "", ollamaModel := "" }

/-- embedding.NewWithProvider. -/
def embeddingNewWithProvider (provider openAIKey ollamaURL ollamaModel : String) :
    EmbeddingService :=
  { provider := provider, openAIKey := openAIKey, ollamaURL := ollamaURL,
    ollamaModel := ollamaModel }

/-- embedding.Service.GetEmbedding dispatch: "ollama" goes to the Ollama
endpoint, anything else (the switch's fallthrough/default) to OpenAI. -/
def effectiveEmbeddingBackend (s : EmbeddingService) : String :=
  if s.provider == "ollama" then "ollama" else "openai"

/-- embedding.BuildQueryText: Sprintf("%s %s %d battery specifications"). -/
def buildQueryText (mk md : String) (yr : Int) : String :=
  mk ++ " " ++ md ++ " " ++ toString yr ++ " battery specifications"

/-! ### Knowledge store (internal/db) -/

/-- A persisted row of ev_specs (identity plus the three value columns). -/
structure StoredSpec where
  make : String
  model : String
  year : Int
  capacity : ℚ
  power : ℚ
  chemistry : String
deriving DecidableEq, Repr

/-- SQL LOWER: lowercase a string character by character. -/
def lowerStr (s : String) : String := ⟨s.data.map Char.toLower⟩

/-- The WHERE clause of GetByMakeModelYear:
LOWER(make) = LOWER($1) AND LOWER(model) = LOWER($2) AND year = $3. -/
def matchesKey (r : StoredSpec) (mk md : String) (yr : Int) : Bool :=
  lowerStr r.make == lowerStr mk && lowerStr r.model == lowerStr md && r.year == yr

/-- db.Client.GetByMakeModelYear: QueryRow over the store (first matching row,
store order authoritative); on a hit, confidence 1.0 and source "database" are
stamped on; ErrNoRows becomes `none`. -/
def getByMakeModelYear (store : List StoredSpec) (mk md : String) (yr : Int) :
    Option EVSpec :=
  (store.find? (fun r => matchesKey r mk md yr)).map fun r =>
    { make := r.make, model := r.model, year := r.year, capacity := r.capacity,
      power := r.power, chemistry := r.chemistry, confidence := 1,
      source := "database" }

/-- A row of the similarity-search result set before the SELECT projection:
the stored columns plus the cosine distance `embedding <=> query` computed by
pgvector (rows with NULL embedding are already filtered out, and the list is
ordered ascending by this distance — the store's ORDER BY). -/
structure SimRow where
  make : String
  model : String
  year : Int
  capacity : ℚ
  power : ℚ
  chemistry : String
  distance : ℚ
deriving DecidableEq, Repr

/-- The SELECT projection of SimilaritySearch: confidence is
`1 - (embedding <=> query)` and the scan loop stamps source "database". -/
def simRowToSpec (r : SimRow) : EVSpec :=
  { make := r.make, model := r.model, year := r.year, capacity := r.capacity,
    power := r.power, chemistry := r.chemistry, confidence := 1 - r.distance,
    source := "database" }

/-- db.Client.SimilaritySearch over the distance-ordered embedded rows:
LIMIT, then the projection. -/
def similaritySearch (rows : List SimRow) (limit : Nat) : List EVSpec :=
  (rows.take limit).map simRowToSpec

/-! ### CLI argument parsing (strconv.Atoi) -/

/-- strconv.Atoi: optional sign, at least one digit, nothing else, and the
value must fit a 64-bit int. -/
def goAtoi (s : String) : Option Int :=
  match s.data with
  | [] => none
  | c :: cs =>
    let neg := c == '-'
    let ds := if c == '-' || c == '+' then cs else c :: cs
    if ds.isEmpty || !ds.all Char.isDigit then none
    else
      let n : Int := (digitsToNat ds : Nat)
      let v := if neg then -n else n
      if v < -(2 ^ 63) || v > 2 ^ 63 - 1 then none else some v

/-! ### The Resolve pipeline (cmd: runQuery) and the add command (cmd: runAdd)

External outcomes are oracle inputs; the pipeline definition mirrors the Go
control flow statement by statement, and each return path records how many
times each collaborator was invoked and the final store contents. -/

deriving instance DecidableEq for Except

/-- Errors a runQuery invocation can surface, one per failing step. -/
inductive StepError where
  | invalidYear (s : String)
  | configError (e : String)
  | dbConnectError (e : String)
  | dbQueryError (e : String)
  | embeddingError (e : String)
  | searchError (e : String)
  | llmError (e : String)
  | insertError (e : String)
deriving DecidableEq, Repr

/-- Oracle outcomes for one runQuery invocation. -/
structure Oracles where
  config : Except String Config
  dbConnOk : Bool
  exactErr : Option String
  embedResult : Except String (List ℚ)
  searchErr : Option String
  simRows : List SimRow
  llmText : Except String String
deriving DecidableEq, Repr

/-- Everything observable about one runQuery invocation. -/
structure QueryOutcome where
  result : Except StepError EVSpec
  exactLookups : Nat
  embedCalls : Nat
  searchCalls : Nat
  llmCalls : Nat
  insertCalls : Nat
  queryTextUsed : Option String
  embedProviderUsed : Option String
  finalStore : List StoredSpec
deriving DecidableEq, Repr

/-- The LLM-fallback tail of runQuery ("Falling back to LLM"): QueryEVSpecs,
wrap an error, otherwise output the parsed spec. -/
def llmFallbackOutcome (llmText : Except String String) (store : List StoredSpec)
    (mkArg mdArg : String) (year : Int) (queryText backend : String) : QueryOutcome :=
  match queryEVSpecs llmText mkArg mdArg year with
  | .error e =>
    { result := .error (.llmError e), exactLookups := 1, embedCalls := 1,
      searchCalls := 1, llmCalls := 1, insertCalls := 0,
      queryTextUsed := some queryText, embedProviderUsed := some backend,
      finalStore := store }
  | .ok spec =>
    { result := .ok spec, exactLookups := 1, embedCalls := 1, searchCalls := 1,
      llmCalls := 1, insertCalls := 0, queryTextUsed := some queryText,
      embedProviderUsed := some backend, finalStore := store }

/-- cmd/root.go runQuery: Atoi, config, db connect, exact match (short
circuit), embedding of BuildQueryText, SimilaritySearch with limit 1,
the `>=` threshold gate, then the LLM fallback. -/
def runQuery (o : Oracles) (store : List StoredSpec) (mkArg mdArg yearStr : String) :
    QueryOutcome :=
  match goAtoi yearStr with
  | none =>
    { result := .error (.invalidYear yearStr), exactLookups := 0, embedCalls := 0,
      searchCalls := 0, llmCalls := 0, insertCalls := 0, queryTextUsed := none,
      embedProviderUsed := none, finalStore := store }
  | some year =>
    match o.config with
    | .error e =>
      { result := .error (.configError e), exactLookups := 0, embedCalls := 0,
        searchCalls := 0, llmCalls := 0, insertCalls := 0, queryTextUsed := none,
        embedProviderUsed := none, finalStore := store }
    | .ok cfg =>
      if !o.dbConnOk then
        { result := .error (.dbConnectError "failed to connect to database"),
          exactLookups := 0, embedCalls := 0, searchCalls := 0, llmCalls := 0,
          insertCalls := 0, queryTextUsed := none, embedProviderUsed := none,
          finalStore := store }
      else
        match o.exactErr with
        | some e =>
          { result := .error (.dbQueryError e), exactLookups := 1, embedCalls := 0,
            searchCalls := 0, llmCalls := 0, insertCalls := 0, queryTextUsed := none,
            embedProviderUsed := none, finalStore := store }
        | none =>
          match getByMakeModelYear store mkArg mdArg year with
          | some spec =>
            { result := .ok spec, exactLookups := 1, embedCalls := 0,
              searchCalls := 0, llmCalls := 0, insertCalls := 0,
              queryTextUsed := none, embedProviderUsed := none, finalStore := store }
          | none =>
            let svc := embeddingNewWithProvider cfg.embeddingProvider
              cfg.openAIAPIKey cfg.ollamaURL cfg.ollamaModel
            let queryText := buildQueryText mkArg mdArg year
            match o.embedResult with
            | .error e =>
              { result := .error (.embeddingError e), exactLookups := 1,
                embedCalls := 1, searchCalls := 0, llmCalls := 0, insertCalls := 0,
                queryTextUsed := some queryText,
                embedProviderUsed := some (effectiveEmbeddingBackend svc),
                finalStore := store }
            | .ok _vec =>
              match o.searchErr with
              | some e =>
                { result := .error (.searchError e), exactLookups := 1,
                  embedCalls := 1, searchCalls := 1, llmCalls := 0, insertCalls := 0,
                  queryTextUsed := some queryText,
                  embedProviderUsed := some (effectiveEmbeddingBackend svc),
                  finalStore := store }
              | none =>
                let results := similaritySearch o.simRows 1
                let fallback : QueryOutcome :=
                  llmFallbackOutcome o.llmText store mkArg mdArg year queryText
                    (effectiveEmbeddingBackend svc)
                match results with
                | r :: _ =>
                  if ConfidenceThreshold ≤ r.confidence then
                    { result := .ok r, exactLookups := 1, embedCalls := 1,
                      searchCalls := 1, llmCalls := 0, insertCalls := 0,
                      queryTextUsed := some queryText,
                      embedProviderUsed := some (effectiveEmbeddingBackend svc),
                      finalStore := store }
                  else fallback
                | [] => fallback

/-- Oracle outcomes for one runAdd invocation. -/
structure AddOracles where
  config : Except String Config
  dbConnOk : Bool
  embedResult : Except String (List ℚ)
  insertErr : Option String
deriving DecidableEq, Repr

/-- Everything observable about one runAdd invocation. -/
structure AddOutcome where
  result : Except StepError Unit
  embedCalls : Nat
  insertCalls : Nat
  queryTextUsed : Option String
  embedProviderUsed : Option String
deriving DecidableEq, Repr

/-- cmd/add.go runAdd: Atoi, config, db connect, `embedding.New(cfg.OpenAIAPIKey)`
(the provider argument of the config is not consulted), BuildQueryText,
GetEmbedding, InsertEVSpec. -/
def runAdd (o : AddOracles) (mkArg mdArg yearStr : String)
    (_capacity _power : ℚ) (_chemistry : String) : AddOutcome :=
  match goAtoi yearStr with
  | none =>
    { result := .error (.invalidYear yearStr), embedCalls := 0, insertCalls := 0,
      queryTextUsed := none, embedProviderUsed := none }
  | some year =>
    match o.config with
    | .error e =>
      { result := .error (.configError e), embedCalls := 0, insertCalls := 0,
        queryTextUsed := none, embedProviderUsed := none }
    | .ok cfg =>
      if !o.dbConnOk then
        { result := .error (.dbConnectError "failed to connect to database"),
          embedCalls := 0, insertCalls := 0, queryTextUsed := none,
          embedProviderUsed := none }
      else
        let svc := embeddingNew cfg.openAIAPIKey
        let queryText := buildQueryText mkArg mdArg year
        match o.embedResult with
        | .error e =>
          { result := .error (.embeddingError e), embedCalls := 1, insertCalls := 0,
            queryTextUsed := some queryText,
            embedProviderUsed := some (effectiveEmbeddingBackend svc) }
        | .ok _vec =>
          match o.insertErr with
          | some e =>
            { result := .error (.insertError e), embedCalls := 1, insertCalls := 1,
              queryTextUsed := some queryText,
              embedProviderUsed := some (effectiveEmbeddingBackend svc) }
          | none =>
            { result := .ok (), embedCalls := 1, insertCalls := 1,
              queryTextUsed := some queryText,
              embedProviderUsed := some (effectiveEmbeddingBackend svc) }

/-! ### Helper lemmas -/

/-- Shape of any successful parse: the record parseEVSpecs builds. -/
theorem parseEVSpecs_some_shape (text mk md : String) (yr : Int) (spec : EVSpec)
    (h : parseEVSpecs text mk md yr = some spec) :
    spec = { make := mk, model := md, year := yr,
             capacity := extractCapacity text.data,
             power := extractPower text.data,
             chemistry := extractChemistry text.data,
             confidence := LLMConfidenceScore, source := "llm" } := by
  unfold parseEVSpecs at h
  dsimp only at h
  split at h
  · exact absurd h (by simp)
  · exact (Option.some.inj h).symm

/-- parseEVSpecs fails exactly when all three extracted fields are zero/empty. -/
theorem parseEVSpecs_none_iff (text mk md : String) (yr : Int) :
    parseEVSpecs text mk md yr = none ↔
      extractCapacity text.data = 0 ∧ extractPower text.data = 0 ∧
        extractChemistry text.data = "" := by
  unfold parseEVSpecs
  dsimp only
  split <;> rename_i h <;>
    simp only [Bool.and_eq_true, beq_iff_eq] at h
  · simp [h]
  · simp only [reduceCtorEq, false_iff]
    intro hcon
    exact h ⟨⟨hcon.1, hcon.2.1⟩, hcon.2.2⟩

/-- Fields stamped by GetByMakeModelYear on a hit. -/
theorem getByMakeModelYear_some (store : List StoredSpec) (mk md : String)
    (yr : Int) (spec : EVSpec) (h : getByMakeModelYear store mk md yr = some spec) :
    spec.confidence = 1 ∧ spec.source = "database" ∧
      matchesKey ⟨spec.make, spec.model, spec.year, spec.capacity, spec.power,
        spec.chemistry⟩ mk md yr = true := by
  unfold getByMakeModelYear at h
  cases hf : store.find? (fun r => matchesKey r mk md yr) with
  | none => rw [hf] at h; exact absurd h (by simp)
  | some r =>
    rw [hf] at h
    have hr := List.find?_some hf
    cases Option.some.inj h
    exact ⟨rfl, rfl, hr⟩

/-- Membership plus a true predicate makes find? succeed. -/
theorem find?_isSome_of_mem {α : Type} (p : α → Bool) (l : List α) (a : α)
    (ha : a ∈ l) (hp : p a = true) : (l.find? p).isSome = true := by
  induction l with
  | nil => cases ha
  | cons x xs ih =>
    cases ha with
    | head => simp [List.find?, hp]
    | tail _ hmem =>
      cases hx : p x with
      | true => simp [List.find?, hx]
      | false => simpa [List.find?, hx] using ih hmem

/-- The invalid-year path of runQuery, fully characterised. -/
theorem runQuery_invalid_year (o : Oracles) (store : List StoredSpec)
    (mk md ys : String) (hy : goAtoi ys = none) :
    runQuery o store mk md ys =
      { result := .error (.invalidYear ys), exactLookups := 0, embedCalls := 0,
        searchCalls := 0, llmCalls := 0, insertCalls := 0, queryTextUsed := none,
        embedProviderUsed := none, finalStore := store } := by
  simp [runQuery, hy]

/-- The config-load-failure path of runQuery. -/
theorem runQuery_config_error (o : Oracles) (store : List StoredSpec)
    (mk md ys : String) (y : Int) (e : String)
    (hy : goAtoi ys = some y) (hc : o.config = .error e) :
    runQuery o store mk md ys =
      { result := .error (.configError e), exactLookups := 0, embedCalls := 0,
        searchCalls := 0, llmCalls := 0, insertCalls := 0, queryTextUsed := none,
        embedProviderUsed := none, finalStore := store } := by
  simp [runQuery, hy, hc]

/-- The connection-failure path of runQuery. -/
theorem runQuery_conn_fail (o : Oracles) (store : List StoredSpec)
    (mk md ys : String) (y : Int) (cfg : Config)
    (hy : goAtoi ys = some y) (hc : o.config = .ok cfg) (hdb : o.dbConnOk = false) :
    runQuery o store mk md ys =
      { result := .error (.dbConnectError "failed to connect to database"),
        exactLookups := 0, embedCalls := 0, searchCalls := 0, llmCalls := 0,
        insertCalls := 0, queryTextUsed := none, embedProviderUsed := none,
        finalStore := store } := by
  simp [runQuery, hy, hc, hdb]

/-- The exact-lookup-transport-error path of runQuery. -/
theorem runQuery_exact_transport_error (o : Oracles) (store : List StoredSpec)
    (mk md ys : String) (y : Int) (cfg : Config) (e : String)
    (hy : goAtoi ys = some y) (hc : o.config = .ok cfg) (hdb : o.dbConnOk = true)
    (hee : o.exactErr = some e) :
    runQuery o store mk md ys =
      { result := .error (.dbQueryError e), exactLookups := 1, embedCalls := 0,
        searchCalls := 0, llmCalls := 0, insertCalls := 0, queryTextUsed := none,
        embedProviderUsed := none, finalStore := store } := by
  simp [runQuery, hy, hc, hdb, hee]

/-- The similarity-search-transport-error path of runQuery. -/
theorem runQuery_search_error (o : Oracles) (store : List StoredSpec)
    (mk md ys : String) (y : Int) (cfg : Config) (v : List ℚ) (e : String)
    (hy : goAtoi ys = some y) (hc : o.config = .ok cfg) (hdb : o.dbConnOk = true)
    (hee : o.exactErr = none) (hmiss : getByMakeModelYear store mk md y = none)
    (hemb : o.embedResult = .ok v) (hse : o.searchErr = some e) :
    runQuery o store mk md ys =
      { result := .error (.searchError e), exactLookups := 1, embedCalls := 1,
        searchCalls := 1, llmCalls := 0, insertCalls := 0,
        queryTextUsed := some (buildQueryText mk md y),
        embedProviderUsed := some (effectiveEmbeddingBackend
          (embeddingNewWithProvider cfg.embeddingProvider cfg.openAIAPIKey
            cfg.ollamaURL cfg.ollamaModel)),
        finalStore := store } := by
  simp [runQuery, hy, hc, hdb, hee, hmiss, hemb, hse]

/-- The exact-match path of runQuery, fully characterised. -/
theorem runQuery_exact_hit (o : Oracles) (store : List StoredSpec)
    (mk md ys : String) (y : Int) (cfg : Config) (spec : EVSpec)
    (hy : goAtoi ys = some y) (hc : o.config = .ok cfg) (hdb : o.dbConnOk = true)
    (hee : o.exactErr = none) (hex : getByMakeModelYear store mk md y = some spec) :
    runQuery o store mk md ys =
      { result := .ok spec, exactLookups := 1, embedCalls := 0, searchCalls := 0,
        llmCalls := 0, insertCalls := 0, queryTextUsed := none,
        embedProviderUsed := none, finalStore := store } := by
  simp [runQuery, hy, hc, hdb, hee, hex]

/-- Once past Atoi, config, connect, and an exact miss, every continuation of
runQuery records the canonical query text and the configured backend. -/
theorem runQuery_embeds_canonical_text (o : Oracles) (store : List StoredSpec)
    (mk md ys : String) (y : Int) (cfg : Config)
    (hy : goAtoi ys = some y) (hc : o.config = .ok cfg) (hdb : o.dbConnOk = true)
    (hee : o.exactErr = none) (hmiss : getByMakeModelYear store mk md y = none) :
    (runQuery o store mk md ys).queryTextUsed = some (buildQueryText mk md y) ∧
    (runQuery o store mk md ys).embedProviderUsed =
      some (effectiveEmbeddingBackend (embeddingNewWithProvider
        cfg.embeddingProvider cfg.openAIAPIKey cfg.ollamaURL cfg.ollamaModel)) := by
  simp only [runQuery, hy, hc, hdb, hee, hmiss, Bool.not_true, Bool.false_eq_true,
    if_false]
  rcases he : o.embedResult with e | v
  · simp
  · rcases hs : o.searchErr with _ | e
    · rcases hr : o.simRows with _ | ⟨r, rest⟩
      · simp [similaritySearch, llmFallbackOutcome]
        rcases queryEVSpecs o.llmText mk md y with e | spec <;> simp
      · simp [similaritySearch]
        split
        · simp
        · simp [llmFallbackOutcome]
          rcases queryEVSpecs o.llmText mk md y with e | spec <;> simp
    · simp

/-- The embedding-transport-error path of runQuery, fully characterised. -/
theorem runQuery_embed_error (o : Oracles) (store : List StoredSpec)
    (mk md ys : String) (y : Int) (cfg : Config) (e : String)
    (hy : goAtoi ys = some y) (hc : o.config = .ok cfg) (hdb : o.dbConnOk = true)
    (hee : o.exactErr = none) (hmiss : getByMakeModelYear store mk md y = none)
    (hemb : o.embedResult = .error e) :
    runQuery o store mk md ys =
      { result := .error (.embeddingError e), exactLookups := 1, embedCalls := 1,
        searchCalls := 0, llmCalls := 0, insertCalls := 0,
        queryTextUsed := some (buildQueryText mk md y),
        embedProviderUsed := some (effectiveEmbeddingBackend
          (embeddingNewWithProvider cfg.embeddingProvider cfg.openAIAPIKey
            cfg.ollamaURL cfg.ollamaModel)),
        finalStore := store } := by
  simp [runQuery, hy, hc, hdb, hee, hmiss, hemb]

/-- The accepted-similarity path of runQuery, fully characterised. -/
theorem runQuery_similarity_accepted (o : Oracles) (store : List StoredSpec)
    (mk md ys : String) (y : Int) (cfg : Config) (v : List ℚ)
    (r : SimRow) (rest : List SimRow)
    (hy : goAtoi ys = some y) (hc : o.config = .ok cfg) (hdb : o.dbConnOk = true)
    (hee : o.exactErr = none) (hmiss : getByMakeModelYear store mk md y = none)
    (hemb : o.embedResult = .ok v) (hse : o.searchErr = none)
    (hrows : o.simRows = r :: rest)
    (hconf : ConfidenceThreshold ≤ (simRowToSpec r).confidence) :
    runQuery o store mk md ys =
      { result := .ok (simRowToSpec r), exactLookups := 1, embedCalls := 1,
        searchCalls := 1, llmCalls := 0, insertCalls := 0,
        queryTextUsed := some (buildQueryText mk md y),
        embedProviderUsed := some (effectiveEmbeddingBackend
          (embeddingNewWithProvider cfg.embeddingProvider cfg.openAIAPIKey
            cfg.ollamaURL cfg.ollamaModel)),
        finalStore := store } := by
  simp [runQuery, hy, hc, hdb, hee, hmiss, hemb, hse, hrows, similaritySearch, hconf]

/-- The below-threshold path of runQuery: the LLM fallback decides the outcome. -/
theorem runQuery_similarity_rejected (o : Oracles) (store : List StoredSpec)
    (mk md ys : String) (y : Int) (cfg : Config) (v : List ℚ)
    (r : SimRow) (rest : List SimRow)
    (hy : goAtoi ys = some y) (hc : o.config = .ok cfg) (hdb : o.dbConnOk = true)
    (hee : o.exactErr = none) (hmiss : getByMakeModelYear store mk md y = none)
    (hemb : o.embedResult = .ok v) (hse : o.searchErr = none)
    (hrows : o.simRows = r :: rest)
    (hconf : (simRowToSpec r).confidence < ConfidenceThreshold) :
    runQuery o store mk md ys =
      llmFallbackOutcome o.llmText store mk md y (buildQueryText mk md y)
        (effectiveEmbeddingBackend (embeddingNewWithProvider
          cfg.embeddingProvider cfg.openAIAPIKey cfg.ollamaURL cfg.ollamaModel)) := by
  simp [runQuery, hy, hc, hdb, hee, hmiss, hemb, hse, hrows, similaritySearch,
    not_le.mpr hconf]

/-- The empty-similarity-result path of runQuery: straight to the fallback. -/
theorem runQuery_similarity_empty (o : Oracles) (store : List StoredSpec)
    (mk md ys : String) (y : Int) (cfg : Config) (v : List ℚ)
    (hy : goAtoi ys = some y) (hc : o.config = .ok cfg) (hdb : o.dbConnOk = true)
    (hee : o.exactErr = none) (hmiss : getByMakeModelYear store mk md y = none)
    (hemb : o.embedResult = .ok v) (hse : o.searchErr = none)
    (hrows : o.simRows = []) :
    runQuery o store mk md ys =
      llmFallbackOutcome o.llmText store mk md y (buildQueryText mk md y)
        (effectiveEmbeddingBackend (embeddingNewWithProvider
          cfg.embeddingProvider cfg.openAIAPIKey cfg.ollamaURL cfg.ollamaModel)) := by
  simp [runQuery, hy, hc, hdb, hee, hmiss, hemb, hse, hrows, similaritySearch]

/-- runAdd past Atoi, config, and connect: the embedding always comes from the
service built by `embedding.New`, whose provider is hard-coded to OpenAI. -/
theorem runAdd_embeds_canonical_text (o : AddOracles) (mk md ys : String)
    (y : Int) (cfg : Config) (cap pow : ℚ) (chem : String)
    (hy : goAtoi ys = some y) (hc : o.config = .ok cfg) (hdb : o.dbConnOk = true) :
    (runAdd o mk md ys cap pow chem).queryTextUsed =
      some (buildQueryText mk md y) ∧
    (runAdd o mk md ys cap pow chem).embedProviderUsed = some "openai" := by
  simp only [runAdd, hy, hc, hdb, Bool.not_true, Bool.false_eq_true, if_false]
  rcases he : o.embedResult with e | v
  · simp [embeddingNew, effectiveEmbeddingBackend]
  · rcases hi : o.insertErr with _ | e <;>
      simp [embeddingNew, effectiveEmbeddingBackend]

/-- The configured threshold as a plain fraction. -/
theorem confidenceThreshold_eq : ConfidenceThreshold = 4/5 := by
  unfold ConfidenceThreshold
  rw [Rat.mkRat_eq_div]
  norm_num

/-- The configured fallback confidence as a plain fraction. -/
theorem llmConfidenceScore_eq : LLMConfidenceScore = 1/2 := by
  unfold LLMConfidenceScore
  rw [Rat.mkRat_eq_div]
  norm_num

/-- Fields stamped on every record the LLM fallback produces. -/
theorem queryEVSpecs_ok_shape (llmText : Except String String) (mk md : String)
    (yr : Int) (spec : EVSpec) (h : queryEVSpecs llmText mk md yr = .ok spec) :
    spec.confidence = LLMConfidenceScore ∧ spec.source = "llm" := by
  unfold queryEVSpecs at h
  rcases llmText with e | text
  · exact absurd h (by simp)
  · dsimp only at h
    rcases hp : parseEVSpecs text mk md yr with _ | s
    · rw [hp] at h; exact absurd h (by simp)
    · rw [hp] at h
      cases Except.ok.inj h
      rw [parseEVSpecs_some_shape _ _ _ _ _ hp]
      exact ⟨rfl, rfl⟩

/-! ### Claim theorems -/

/-- C1: if a record with key (make, model, year) exists in the Knowledge
Store (case-insensitive on make and model, exact on year), Resolve returns it
with confidence exactly 1.0 and source "database", and invokes neither the
embedding provider nor the generative fallback provider. -/
theorem exact_match_short_circuit (o : Oracles) (store : List StoredSpec)
    (mk md ys : String) (y : Int) (cfg : Config)
    (hy : goAtoi ys = some y) (hc : o.config = .ok cfg) (hdb : o.dbConnOk = true)
    (hee : o.exactErr = none)
    (hex : ∃ r ∈ store, matchesKey r mk md y = true) :
    ∃ spec, (runQuery o store mk md ys).result = .ok spec ∧
      spec.confidence = 1 ∧ spec.source = "database" ∧
      matchesKey ⟨spec.make, spec.model, spec.year, spec.capacity, spec.power,
        spec.chemistry⟩ mk md y = true ∧
      (runQuery o store mk md ys).embedCalls = 0 ∧
      (runQuery o store mk md ys).llmCalls = 0 := by
  obtain ⟨r, hmem, hkey⟩ := hex
  have hsome : (store.find? (fun r => matchesKey r mk md y)).isSome = true :=
    find?_isSome_of_mem _ _ r hmem hkey
  obtain ⟨r0, hr0⟩ := Option.isSome_iff_exists.mp hsome
  obtain ⟨spec, hget⟩ : ∃ s, getByMakeModelYear store mk md y = some s := by
    unfold getByMakeModelYear
    rw [hr0]
    exact ⟨_, rfl⟩
  have hfields := getByMakeModelYear_some store mk md y spec hget
  have hrun := runQuery_exact_hit o store mk md ys y cfg spec hy hc hdb hee hget
  exact ⟨spec, by rw [hrun], hfields.1, hfields.2.1, hfields.2.2,
    by rw [hrun], by rw [hrun]⟩

/-- C2: a similarity result whose confidence equals the configured threshold
is accepted and returned with source "database" (the comparison is `>=`, not
`>`), while a result strictly below the threshold sends Resolve to the
generative fallback. -/
theorem threshold_boundary (o : Oracles) (store : List StoredSpec)
    (mk md ys : String) (y : Int) (cfg : Config) (r : SimRow) (rest : List SimRow)
    (hy : goAtoi ys = some y) (hc : o.config = .ok cfg) (hdb : o.dbConnOk = true)
    (hee : o.exactErr = none) (hmiss : getByMakeModelYear store mk md y = none)
    (hemb : ∃ v, o.embedResult = .ok v) (hse : o.searchErr = none)
    (hrows : o.simRows = r :: rest) :
    ((simRowToSpec r).confidence = ConfidenceThreshold →
      (runQuery o store mk md ys).result = .ok (simRowToSpec r) ∧
      (simRowToSpec r).source = "database" ∧
      (runQuery o store mk md ys).llmCalls = 0) ∧
    ((simRowToSpec r).confidence < ConfidenceThreshold →
      (runQuery o store mk md ys).llmCalls = 1) := by
  obtain ⟨v, hv⟩ := hemb
  constructor
  · intro hconf
    have hrun := runQuery_similarity_accepted o store mk md ys y cfg v r rest
      hy hc hdb hee hmiss hv hse hrows (le_of_eq hconf.symm)
    exact ⟨by rw [hrun], rfl, by rw [hrun]⟩
  · intro hconf
    have hrun := runQuery_similarity_rejected o store mk md ys y cfg v r rest
      hy hc hdb hee hmiss hv hse hrows hconf
    rw [hrun]
    unfold llmFallbackOutcome
    rcases queryEVSpecs o.llmText mk md y with e | spec <;> simp

/-- C3: Parse fails exactly when all three extracted fields are zero/empty;
each field is extracted independently of the others; and a text containing
only a chemistry line parses to a record with that chemistry and zero
capacity and power. -/
theorem parser_tolerance (text mk md : String) (yr : Int) :
    (parseEVSpecs text mk md yr = none ↔
      extractCapacity text.data = 0 ∧ extractPower text.data = 0 ∧
        extractChemistry text.data = "") ∧
    (∀ spec, parseEVSpecs text mk md yr = some spec →
      spec.capacity = extractCapacity text.data ∧
      spec.power = extractPower text.data ∧
      spec.chemistry = extractChemistry text.data) ∧
    parseEVSpecs "Chemistry: NMC" mk md yr =
      some { make := mk, model := md, year := yr, capacity := 0, power := 0,
             chemistry := "NMC", confidence := LLMConfidenceScore,
             source := "llm" } := by
  refine ⟨parseEVSpecs_none_iff text mk md yr, ?_, ?_⟩
  · intro spec h
    rw [parseEVSpecs_some_shape text mk md yr spec h]
    exact ⟨rfl, rfl, rfl⟩
  · have h1 : extractCapacity "Chemistry: NMC".data = 0 := by decide
    have h2 : extractPower "Chemistry: NMC".data = 0 := by decide
    have h3 : extractChemistry "Chemistry: NMC".data = "NMC" := by decide
    have h4 : (("NMC" : String) == "") = false := by decide
    unfold parseEVSpecs
    dsimp only
    rw [h1, h2, h3]
    simp [h4]

/-- C4: every record produced by the generative-fallback path carries the
fixed configured confidence (0.5) and source "llm", independent of the query
and of how many fields were parsed. -/
theorem fallback_fixed_confidence (llmText : Except String String)
    (mk md : String) (yr : Int) (spec : EVSpec)
    (h : queryEVSpecs llmText mk md yr = .ok spec) :
    spec.confidence = LLMConfidenceScore ∧ spec.source = "llm" ∧
      LLMConfidenceScore = 1/2 := by
  have hs := queryEVSpecs_ok_shape llmText mk md yr spec h
  exact ⟨hs.1, hs.2, llmConfidenceScore_eq⟩

/-- C5: the canonical query text handed to the embedding provider is the same
deterministic function of (make, model, year) on the add path and the query
path — both use BuildQueryText, which returns
"{make} {model} {year} battery specifications". -/
theorem canonical_query_text_shared (ao : AddOracles) (qo : Oracles)
    (store : List StoredSpec) (mk md ys : String) (y : Int)
    (cap pow : ℚ) (chem : String) (acfg qcfg : Config)
    (hy : goAtoi ys = some y)
    (hac : ao.config = .ok acfg) (hadb : ao.dbConnOk = true)
    (hqc : qo.config = .ok qcfg) (hqdb : qo.dbConnOk = true)
    (hqe : qo.exactErr = none) (hmiss : getByMakeModelYear store mk md y = none) :
    (runAdd ao mk md ys cap pow chem).queryTextUsed =
      some (buildQueryText mk md y) ∧
    (runQuery qo store mk md ys).queryTextUsed =
      some (buildQueryText mk md y) ∧
    buildQueryText mk md y =
      mk ++ " " ++ md ++ " " ++ toString y ++ " battery specifications" := by
  exact ⟨(runAdd_embeds_canonical_text ao mk md ys y acfg cap pow chem hy hac hadb).1,
    (runQuery_embeds_canonical_text qo store mk md ys y qcfg hy hqc hqdb hqe hmiss).1,
    rfl⟩

/-- C6: an embedding-provider error in Step 2 fails Resolve immediately with
that error; the generative fallback is never invoked on an embedding
transport failure. -/
theorem embedding_error_no_fallback (o : Oracles) (store : List StoredSpec)
    (mk md ys : String) (y : Int) (cfg : Config) (e : String)
    (hy : goAtoi ys = some y) (hc : o.config = .ok cfg) (hdb : o.dbConnOk = true)
    (hee : o.exactErr = none) (hmiss : getByMakeModelYear store mk md y = none)
    (hemb : o.embedResult = .error e) :
    (runQuery o store mk md ys).result = .error (.embeddingError e) ∧
    (runQuery o store mk md ys).llmCalls = 0 := by
  have hrun := runQuery_embed_error o store mk md ys y cfg e hy hc hdb hee hmiss hemb
  exact ⟨by rw [hrun], by rw [hrun]⟩

/-- C7: every record Resolve returns carries a confidence in [0,1]
(given that the store's cosine distances are nonnegative): exactly 1 on the
exact-match path, 1 − cosine_distance for the accepted similarity result, and
the fixed configured value on the fallback path. -/
theorem resolve_confidence_in_unit_interval (o : Oracles)
    (store : List StoredSpec) (mk md ys : String)
    (hd : ∀ r ∈ o.simRows, 0 ≤ r.distance)
    (spec : EVSpec) (h : (runQuery o store mk md ys).result = .ok spec) :
    0 ≤ spec.confidence ∧ spec.confidence ≤ 1 ∧
      (spec.confidence = 1 ∨ spec.confidence = LLMConfidenceScore ∨
        ∃ r, o.simRows.head? = some r ∧ spec.confidence = 1 - r.distance) := by
  rcases hy : goAtoi ys with _ | y
  · rw [runQuery_invalid_year o store mk md ys hy] at h
    exact absurd h (by simp)
  rcases hc : o.config with e | cfg
  · rw [runQuery_config_error o store mk md ys y e hy hc] at h
    exact absurd h (by simp)
  rcases hdb : o.dbConnOk with _ | _
  · rw [runQuery_conn_fail o store mk md ys y cfg hy hc hdb] at h
    exact absurd h (by simp)
  rcases hee : o.exactErr with _ | e
  case some =>
    rw [runQuery_exact_transport_error o store mk md ys y cfg e hy hc hdb hee] at h
    exact absurd h (by simp)
  rcases hex : getByMakeModelYear store mk md y with _ | spec0
  case some =>
    rw [runQuery_exact_hit o store mk md ys y cfg spec0 hy hc hdb hee hex] at h
    have h' : Except.ok (ε := StepError) spec0 = Except.ok spec := h
    cases Except.ok.inj h'
    have hf := getByMakeModelYear_some store mk md y spec hex
    rw [hf.1]
    exact ⟨by norm_num, by norm_num, Or.inl rfl⟩
  rcases hemb : o.embedResult with e | v
  · rw [runQuery_embed_error o store mk md ys y cfg e hy hc hdb hee hex hemb] at h
    exact absurd h (by simp)
  rcases hse : o.searchErr with _ | e
  case some =>
    rw [runQuery_search_error o store mk md ys y cfg v e hy hc hdb hee hex hemb hse] at h
    exact absurd h (by simp)
  have hfall : ∀ qt bk,
      (llmFallbackOutcome o.llmText store mk md y qt bk).result = .ok spec →
      spec.confidence = LLMConfidenceScore := by
    intro qt bk hfb
    unfold llmFallbackOutcome at hfb
    rcases hq : queryEVSpecs o.llmText mk md y with e | s
    · rw [hq] at hfb
      exact absurd hfb (by simp)
    · rw [hq] at hfb
      have h' : Except.ok (ε := StepError) s = Except.ok spec := hfb
      cases Except.ok.inj h'
      exact (queryEVSpecs_ok_shape _ _ _ _ _ hq).1
  rcases hrows : o.simRows with _ | ⟨r, rest⟩
  · rw [runQuery_similarity_empty o store mk md ys y cfg v hy hc hdb hee hex hemb hse hrows] at h
    rw [hfall _ _ h]
    exact ⟨by rw [llmConfidenceScore_eq]; norm_num,
      by rw [llmConfidenceScore_eq]; norm_num, Or.inr (Or.inl rfl)⟩
  by_cases hconf : ConfidenceThreshold ≤ (simRowToSpec r).confidence
  · rw [runQuery_similarity_accepted o store mk md ys y cfg v r rest
      hy hc hdb hee hex hemb hse hrows hconf] at h
    have h' : Except.ok (ε := StepError) (simRowToSpec r) = Except.ok spec := h
    cases Except.ok.inj h'
    have hds : 0 ≤ r.distance := hd r (by rw [hrows]; exact List.mem_cons_self r rest)
    rw [confidenceThreshold_eq] at hconf
    simp only [simRowToSpec] at hconf
    refine ⟨?_, ?_, Or.inr (Or.inr ⟨r, rfl, rfl⟩)⟩
    · show (0 : ℚ) ≤ 1 - r.distance
      linarith
    · show (1 : ℚ) - r.distance ≤ 1
      linarith
  · rw [runQuery_similarity_rejected o store mk md ys y cfg v r rest
      hy hc hdb hee hex hemb hse hrows (not_le.mp hconf)] at h
    rw [hfall _ _ h]
    exact ⟨by rw [llmConfidenceScore_eq]; norm_num,
      by rw [llmConfidenceScore_eq]; norm_num, Or.inr (Or.inl rfl)⟩

/-- C8: a year argument that is not a valid integer is rejected before any
collaborator is contacted: no store lookup, no embedding request, no
similarity search, no generative request, and the store is untouched. -/
theorem invalid_year_rejected (o : Oracles) (store : List StoredSpec)
    (mk md ys : String) (hy : goAtoi ys = none) :
    runQuery o store mk md ys =
      { result := .error (.invalidYear ys), exactLookups := 0, embedCalls := 0,
        searchCalls := 0, llmCalls := 0, insertCalls := 0, queryTextUsed := none,
        embedProviderUsed := none, finalStore := store } :=
  runQuery_invalid_year o store mk md ys hy

/-- C9: no invocation of the query pipeline ever writes to the Knowledge
Store — runQuery performs no insert and leaves the store unchanged, including
after a successful generative fallback. -/
theorem resolve_never_writes (o : Oracles) (store : List StoredSpec)
    (mk md ys : String) :
    (runQuery o store mk md ys).insertCalls = 0 ∧
    (runQuery o store mk md ys).finalStore = store := by
  rcases hy : goAtoi ys with _ | y
  · rw [runQuery_invalid_year o store mk md ys hy]
    exact ⟨rfl, rfl⟩
  rcases hc : o.config with e | cfg
  · rw [runQuery_config_error o store mk md ys y e hy hc]
    exact ⟨rfl, rfl⟩
  rcases hdb : o.dbConnOk with _ | _
  · rw [runQuery_conn_fail o store mk md ys y cfg hy hc hdb]
    exact ⟨rfl, rfl⟩
  rcases hee : o.exactErr with _ | e
  case some =>
    rw [runQuery_exact_transport_error o store mk md ys y cfg e hy hc hdb hee]
    exact ⟨rfl, rfl⟩
  rcases hex : getByMakeModelYear store mk md y with _ | spec0
  case some =>
    rw [runQuery_exact_hit o store mk md ys y cfg spec0 hy hc hdb hee hex]
    exact ⟨rfl, rfl⟩
  rcases hemb : o.embedResult with e | v
  · rw [runQuery_embed_error o store mk md ys y cfg e hy hc hdb hee hex hemb]
    exact ⟨rfl, rfl⟩
  rcases hse : o.searchErr with _ | e
  case some =>
    rw [runQuery_search_error o store mk md ys y cfg v e hy hc hdb hee hex hemb hse]
    exact ⟨rfl, rfl⟩
  have hfb : ∀ qt bk,
      (llmFallbackOutcome o.llmText store mk md y qt bk).insertCalls = 0 ∧
      (llmFallbackOutcome o.llmText store mk md y qt bk).finalStore = store := by
    intro qt bk
    unfold llmFallbackOutcome
    rcases queryEVSpecs o.llmText mk md y with e | s <;> exact ⟨rfl, rfl⟩
  rcases hrows : o.simRows with _ | ⟨r, rest⟩
  · rw [runQuery_similarity_empty o store mk md ys y cfg v hy hc hdb hee hex hemb hse hrows]
    exact hfb _ _
  by_cases hconf : ConfidenceThreshold ≤ (simRowToSpec r).confidence
  · rw [runQuery_similarity_accepted o store mk md ys y cfg v r rest
      hy hc hdb hee hex hemb hse hrows hconf]
    exact ⟨rfl, rfl⟩
  · rw [runQuery_similarity_rejected o store mk md ys y cfg v r rest
      hy hc hdb hee hex hemb hse hrows (not_le.mp hconf)]
    exact hfb _ _

/-- C10: the add path always obtains its embedding from the OpenAI provider
(its constructor hard-codes ProviderOpenAI, ignoring the configured
EmbeddingProvider), while the query path uses the configured provider; with
EmbeddingProvider = "ollama" the write-side and read-side embeddings for the
same key come from different providers. -/
theorem add_openai_query_configured (ao : AddOracles) (qo : Oracles)
    (store : List StoredSpec) (mk md ys : String) (y : Int)
    (cap pow : ℚ) (chem : String) (acfg qcfg : Config)
    (hy : goAtoi ys = some y)
    (hac : ao.config = .ok acfg) (hadb : ao.dbConnOk = true)
    (hqc : qo.config = .ok qcfg) (hqdb : qo.dbConnOk = true)
    (hqe : qo.exactErr = none) (hmiss : getByMakeModelYear store mk md y = none)
    (hprov : qcfg.embeddingProvider = "ollama") :
    (runAdd ao mk md ys cap pow chem).embedProviderUsed = some "openai" ∧
    (runQuery qo store mk md ys).embedProviderUsed = some "ollama" ∧
    ("openai" : String) ≠ "ollama" := by
  refine ⟨(runAdd_embeds_canonical_text ao mk md ys y acfg cap pow chem hy hac hadb).2,
    ?_, by decide⟩
  have h := (runQuery_embeds_canonical_text qo store mk md ys y qcfg hy hqc hqdb hqe hmiss).2
  rw [h]
  simp [effectiveEmbeddingBackend, embeddingNewWithProvider, hprov]

/-! ### Concrete fixtures for the closed witnesses -/

/-- A concrete configuration with the Ollama embedding provider selected. -/
def wCfg : Config :=
  { databaseURL := "postgres://localhost/ev", openAIAPIKey := "sk-test",
    anthropicAPIKey := "ak-test", embeddingProvider := "ollama",
    llmProvider := "ollama", ollamaURL := "http://localhost:11434",
    ollamaModel := "nomic-embed-text", ollamaLLMModel := "gemma3" }

/-- A one-row store. -/
def wStore : List StoredSpec := [⟨"Tesla", "Model 3", 2023, 75, 283, "NMC"⟩]

/-- A similarity row at cosine distance 1/5, i.e. confidence 4/5 = threshold. -/
def wRow : SimRow := ⟨"Tesla", "Model Y", 2023, 78, 300, "NMC", mkRat 1 5⟩

/-- Confidence of the fixture similarity row. -/
theorem wRow_conf : (simRowToSpec wRow).confidence = 4/5 := by
  show (1 : ℚ) - mkRat 1 5 = 4/5
  rw [Rat.mkRat_eq_div]
  norm_num

/-- A well-formed fallback reply. -/
def wText : String := "Capacity: 135 kWh\nPower: 200 kW\nChemistry: NMC"

/-- Oracles for a fully successful invocation. -/
def wOracles : Oracles :=
  { config := .ok wCfg, dbConnOk := true, exactErr := none,
    embedResult := .ok [1, 0, 0], searchErr := none, simRows := [wRow],
    llmText := .ok wText }

/-- Oracles whose embedding call fails with a transport error. -/
def wOraclesEmbedErr : Oracles :=
  { wOracles with embedResult := .error "connection refused" }

/-- Oracles for a successful add invocation. -/
def wAddOracles : AddOracles :=
  { config := .ok wCfg, dbConnOk := true, embedResult := .ok [1, 0, 0],
    insertErr := none }

/-- The record parsed from wText. -/
def wLLMSpec : EVSpec :=
  { make := "Rivian", model := "R1T", year := 2023, capacity := 135, power := 200,
    chemistry := "NMC", confidence := LLMConfidenceScore, source := "llm" }

/-! ### Witnesses -/

/-- Witness for C1: a store seeded with (Tesla, Model 3, 2023), queried with
different casing, short-circuits on the exact match. -/
theorem exact_match_short_circuit_witness :
    ∃ spec, (runQuery wOracles wStore "tesla" "MODEL 3" "2023").result = .ok spec ∧
      spec.confidence = 1 ∧ spec.source = "database" ∧
      matchesKey ⟨spec.make, spec.model, spec.year, spec.capacity, spec.power,
        spec.chemistry⟩ "tesla" "MODEL 3" 2023 = true ∧
      (runQuery wOracles wStore "tesla" "MODEL 3" "2023").embedCalls = 0 ∧
      (runQuery wOracles wStore "tesla" "MODEL 3" "2023").llmCalls = 0 :=
  exact_match_short_circuit wOracles wStore "tesla" "MODEL 3" "2023" 2023 wCfg
    (by decide) rfl rfl rfl
    ⟨⟨"Tesla", "Model 3", 2023, 75, 283, "NMC"⟩, by simp [wStore], by decide⟩

/-- Witness for C2: a similarity row exactly at the threshold. -/
theorem threshold_boundary_witness :
    ((simRowToSpec wRow).confidence = ConfidenceThreshold →
      (runQuery wOracles [] "Rivian" "R1T" "2023").result = .ok (simRowToSpec wRow) ∧
      (simRowToSpec wRow).source = "database" ∧
      (runQuery wOracles [] "Rivian" "R1T" "2023").llmCalls = 0) ∧
    ((simRowToSpec wRow).confidence < ConfidenceThreshold →
      (runQuery wOracles [] "Rivian" "R1T" "2023").llmCalls = 1) :=
  threshold_boundary wOracles [] "Rivian" "R1T" "2023" 2023 wCfg wRow []
    (by decide) rfl rfl rfl rfl ⟨[1, 0, 0], rfl⟩ rfl rfl

/-- Witness for C4: the record parsed from a complete fallback reply carries
the fixed confidence and source. -/
theorem fallback_fixed_confidence_witness :
    wLLMSpec.confidence = LLMConfidenceScore ∧ wLLMSpec.source = "llm" ∧
      LLMConfidenceScore = 1/2 :=
  fallback_fixed_confidence (.ok wText) "Rivian" "R1T" 2023 wLLMSpec (by decide)

/-- Witness for C5: add and query use the same canonical query text. -/
theorem canonical_query_text_shared_witness :
    (runAdd wAddOracles "Rivian" "R1T" "2023" 135 200 "NMC").queryTextUsed =
      some (buildQueryText "Rivian" "R1T" 2023) ∧
    (runQuery wOracles [] "Rivian" "R1T" "2023").queryTextUsed =
      some (buildQueryText "Rivian" "R1T" 2023) ∧
    buildQueryText "Rivian" "R1T" 2023 =
      "Rivian" ++ " " ++ "R1T" ++ " " ++ toString (2023 : Int) ++
        " battery specifications" :=
  canonical_query_text_shared wAddOracles wOracles [] "Rivian" "R1T" "2023" 2023
    135 200 "NMC" wCfg wCfg (by decide) rfl rfl rfl rfl rfl rfl

/-- Witness for C6: an embedding transport error halts resolution without a
fallback call. -/
theorem embedding_error_no_fallback_witness :
    (runQuery wOraclesEmbedErr [] "Rivian" "R1T" "2023").result =
      .error (.embeddingError "connection refused") ∧
    (runQuery wOraclesEmbedErr [] "Rivian" "R1T" "2023").llmCalls = 0 :=
  embedding_error_no_fallback wOraclesEmbedErr [] "Rivian" "R1T" "2023" 2023 wCfg
    "connection refused" (by decide) rfl rfl rfl rfl rfl

/-- Witness for C7: the at-threshold similarity result has confidence in [0,1]
of the 1 − distance form. -/
theorem resolve_confidence_in_unit_interval_witness :
    0 ≤ (simRowToSpec wRow).confidence ∧ (simRowToSpec wRow).confidence ≤ 1 ∧
      ((simRowToSpec wRow).confidence = 1 ∨
       (simRowToSpec wRow).confidence = LLMConfidenceScore ∨
        ∃ r, wOracles.simRows.head? = some r ∧
          (simRowToSpec wRow).confidence = 1 - r.distance) :=
  resolve_confidence_in_unit_interval wOracles [] "Rivian" "R1T" "2023"
    (by decide) (simRowToSpec wRow)
    (by rw [runQuery_similarity_accepted wOracles [] "Rivian" "R1T" "2023" 2023
      wCfg [1, 0, 0] wRow [] (by decide) rfl rfl rfl rfl rfl rfl rfl
      (by rw [confidenceThreshold_eq, wRow_conf])])

/-- Witness for C8: a malformed year is rejected with no collaborator calls. -/
theorem invalid_year_rejected_witness :
    runQuery wOracles wStore "Tesla" "Model 3" "20x3" =
      { result := .error (.invalidYear "20x3"), exactLookups := 0, embedCalls := 0,
        searchCalls := 0, llmCalls := 0, insertCalls := 0, queryTextUsed := none,
        embedProviderUsed := none, finalStore := wStore } :=
  invalid_year_rejected wOracles wStore "Tesla" "Model 3" "20x3" (by decide)

/-- Witness for C10: with EmbeddingProvider = "ollama", the add path still
embeds via OpenAI while the query path embeds via Ollama. -/
theorem add_openai_query_configured_witness :
    (runAdd wAddOracles "Rivian" "R1T" "2023" 135 200 "NMC").embedProviderUsed =
      some "openai" ∧
    (runQuery wOracles [] "Rivian" "R1T" "2023").embedProviderUsed =
      some "ollama" ∧
    ("openai" : String) ≠ "ollama" :=
  add_openai_query_configured wAddOracles wOracles [] "Rivian" "R1T" "2023" 2023
    135 200 "NMC" wCfg wCfg (by decide) rfl rfl rfl rfl rfl rfl rfl

end EVOracle
